import Mathlib

/-!
Verification development for `declare_config.py`, a declarative
configuration-resolution engine.  The Python source is shallowly embedded:
documents are an inductive `Value` type, Python exceptions are an `Err`
type threaded through `Except`, the filesystem / environment / home
expansion collaborators are an explicit `World` record, and the `Setting`
descriptor with its pre/post-processor pipelines is a Lean structure whose
access protocol is a pure function of the descriptor and the container
instance.
-/

namespace DeclareConfig

/-- Python exceptions that the embedded code can raise. -/
inductive Err where
  | valueError (msg : String)
  | typeError (msg : String)
  | keyError (key : String)
  | attributeError (name : String)
  | recursionError
deriving DecidableEq, Repr

/-- A parsed configuration value: a YAML scalar (string or integer) or a
nested string-keyed mapping.  This is the shape `yaml.load` produces for the
documents this library handles. -/
inductive Value where
  | str (s : String) : Value
  | int (n : Int) : Value
  | dict (entries : List (String × Value)) : Value

/-- Python truthiness on embedded values: empty string, zero and empty
mapping are falsy. -/
def Value.truthy : Value → Bool
  | .str s => !s.isEmpty
  | .int n => n != 0
  | .dict es => !es.isEmpty

/-- The `Configuration` container: wraps the `_config_data` document. -/
structure Configuration where
  config_data : Value

/-- Embeds `Configuration.__init__`: `self._config_data = config_data or {}`,
so a missing or falsy document is replaced by the empty mapping. -/
def Configuration.make (config_data : Option Value) : Configuration :=
  ⟨match config_data with
   | some v => if v.truthy then v else .dict []
   | none => .dict []⟩

/-- Splits a list of characters on the dot character, embedding Python
`str.split` with a single-character separator (empty pieces are kept). -/
def splitDotAux : List Char → List Char → List (List Char)
  | [], acc => [acc.reverse]
  | c :: cs, acc =>
    if c = '.' then acc.reverse :: splitDotAux cs [] else splitDotAux cs (c :: acc)

/-- Embeds `config_path.split('.')`. -/
def splitDot (s : String) : List String :=
  (splitDotAux s.data []).map String.mk

/-- Decides whether the first character list occurs contiguously inside the
second (the Python substring test on strings). -/
def listIsInfix (needle : List Char) : List Char → Bool
  | [] => needle.isEmpty
  | c :: cs => needle.isPrefixOf (c :: cs) || listIsInfix needle cs

/-- Embeds the Python membership test `item in node`: key membership on a
mapping, substring containment on a string, and a `TypeError` on an
integer (non-iterable). -/
def Value.containsItem : Value → String → Except Err Bool
  | .dict es, item => .ok (es.any (fun kv => kv.1 == item))
  | .str s, item => .ok (listIsInfix item.data s.data)
  | .int _, _ => .error (.typeError "argument of type int is not iterable")

/-- Embeds the Python subscript `node[item]` with a string index: mapping
lookup on a mapping, a `TypeError` on a string or integer. -/
def Value.getItem : Value → String → Except Err Value
  | .dict es, item =>
    match es.lookup item with
    | some v => .ok v
    | none => .error (.keyError item)
  | .str _, _ => .error (.typeError "string indices must be integers")
  | .int _, _ => .error (.typeError "int object is not subscriptable")

/-- The loop body of `Configuration._resolve`: walk the document one path
segment at a time, returning `none` (Python `None`) as soon as a segment
fails the membership test, and the node reached after all segments
otherwise.  Membership and subscripting follow Python semantics, so they
can raise on non-mapping nodes. -/
def resolveSteps : Value → List String → Except Err (Option Value)
  | current, [] => .ok (some current)
  | current, item :: rest =>
    match current.containsItem item with
    | .error e => .error e
    | .ok false => .ok none
    | .ok true =>
      match current.getItem item with
      | .error e => .error e
      | .ok next => resolveSteps next rest

/-- Embeds `Configuration._resolve`. -/
def Configuration.resolve (self : Configuration) (config_path : String) :
    Except Err (Option Value) :=
  resolveSteps self.config_data (splitDot config_path)

/-- Modelled from the spec: the pure dotted-path walk the spec describes
(split on the dot, absence as soon as a segment is missing, final node
otherwise), with no possibility of raising.  Used to compare the code's
resolver against the spec's description. -/
def specWalk : Value → List String → Option Value
  | current, [] => some current
  | .dict es, item :: rest =>
    match es.lookup item with
    | some v => specWalk v rest
    | none => none
  | .str _, _ :: _ => none
  | .int _, _ :: _ => none

/-- Every node visited while consuming the path segments (other than the
final node) is a mapping; under this condition the code's resolver cannot
raise. -/
def dictsAlong : Value → List String → Bool
  | _, [] => true
  | .dict es, item :: rest =>
    match es.lookup item with
    | some v => dictsAlong v rest
    | none => true
  | .str _, _ :: _ => false
  | .int _, _ :: _ => false

/-- The external collaborators: environment variables, home expansion and
the filesystem combined with the YAML parser (a file either does not exist
or parses to a document). -/
structure World where
  env : String → Option String
  expand : String → String
  files : String → Option Value

/-- Embeds `load_configuration_from_file`: expand the user home marker,
return absence for a missing file unless `must_exist`, which instead raises
naming the expanded path; otherwise return the parsed document. -/
def load_configuration_from_file (w : World) (file_location : String)
    (must_exist : Bool) : Except Err (Option Value) :=
  let file_location := w.expand file_location
  match w.files file_location with
  | none =>
    if must_exist then
      .error (.valueError ("could not find configuration file at " ++ file_location))
    else
      .ok none
  | some doc => .ok (some doc)

/-- Embeds `load_configuration_from_environment_variable`: an unset
variable is absence; a set one delegates to the file loader. -/
def load_configuration_from_environment_variable (w : World) (ev_name : String)
    (must_exist : Bool) : Except Err (Option Value) :=
  match w.env ev_name with
  | none => .ok none
  | some ev_value => load_configuration_from_file w ev_value must_exist

/-- The location argument accepted by the dispatcher: an in-memory mapping
or a string. -/
inductive Location where
  | mapping (entries : List (String × Value)) : Location
  | strLoc (s : String) : Location

/-- Embeds `location.startswith("$")`. -/
def startsWithDollar (s : String) : Bool :=
  match s.data with
  | '$' :: _ => true
  | _ => false

/-- Embeds `location[1:]`. -/
def dropFirstChar (s : String) : String :=
  String.mk s.data.tail

/-- Embeds `load_configuration`, the dispatcher.  The `must_exist` keyword
argument is `none` when the caller omitted it, so each resolver applies its
own default (`true` for the environment-variable route, `false` for the
file route). -/
def load_configuration (w : World) (location : Location)
    (must_exist : Option Bool) : Except Err (Option Value) :=
  match location with
  | .mapping entries => .ok (some (.dict entries))
  | .strLoc s =>
    if startsWithDollar s then
      load_configuration_from_environment_variable w (dropFirstChar s)
        (must_exist.getD true)
    else
      load_configuration_from_file w s (must_exist.getD false)

/-- A provider is a zero-argument thunk; its one invocation is modelled by
its result: a document, absence, or a raised exception. -/
def ProviderResult : Type := Except Err (Option Value)

/-- Embeds `chain_providers`: with no previous provider the new one stands
alone; otherwise the new provider runs first, a raised exception
propagates, a document is returned as is, and only absence falls through
to the previous provider. -/
def chain_providers (func1 : ProviderResult) (func2 : Option ProviderResult) :
    ProviderResult :=
  match func2 with
  | none => func1
  | some f2 =>
    match func1 with
    | .error e => .error e
    | .ok (some result) => .ok (some result)
    | .ok none => f2

/-- A configuration class: its name and its (possibly absent) registered
provider chain. -/
structure ConfigClass where
  name : String
  provider : Option ProviderResult

/-- Embeds the `configuration_provider` decorator: prepend a provider that
resolves the given location, chained in front of whatever provider the
class already had. -/
def configuration_provider (w : World) (location : Location)
    (must_exist : Option Bool) (cls : ConfigClass) : ConfigClass :=
  ⟨cls.name, some (chain_providers (load_configuration w location must_exist) cls.provider)⟩

/-- Argument shapes of `Configuration.load`: no arguments, or an explicit
location (with an optional `must_exist` keyword). -/
inductive LoadArgs where
  | noArgs : LoadArgs
  | withLocation (location : Location) (must_exist : Option Bool) : LoadArgs

/-- Embeds the class method `Configuration.load`: explicit arguments go
straight to the dispatcher, no arguments require a registered provider,
an absent document is an error, and a present one is wrapped in a fresh
container instance. -/
def ConfigClass.load (w : World) (cls : ConfigClass) (args : LoadArgs) :
    Except Err Configuration :=
  let fetched : Except Err (Option Value) :=
    match args with
    | .withLocation location must_exist => load_configuration w location must_exist
    | .noArgs =>
      match cls.provider with
      | none => .error (.typeError (cls.name ++ " has no provider defined"))
      | some p => p
  match fetched with
  | .error e => .error e
  | .ok none => .error (.valueError "configuration file could not be loaded")
  | .ok (some d) => .ok (Configuration.make (some d))

/-- The `setting_type` argument of a `Setting`: a Python object that is
either callable (a coercion function on values) or not (any other
object). -/
inductive SettingTypeArg where
  | callableFn (f : Value → Value) : SettingTypeArg
  | notCallable (obj : Value) : SettingTypeArg

/-- Embeds Python `callable(setting_type)`. -/
def SettingTypeArg.isCallable : SettingTypeArg → Bool
  | .callableFn _ => true
  | .notCallable _ => false

/-- Embeds `setting_type(value)`: calling a non-callable raises. -/
def SettingTypeArg.call : SettingTypeArg → Value → Except Err Value
  | .callableFn f, v => .ok (f v)
  | .notCallable _, _ => .error (.typeError "object is not callable")

/-- A pre- or post-processor: a callable taking the container instance and
the current working value. -/
def Processor : Type := Configuration → Value → Value

/-- The `Setting` descriptor state after construction and any processor
registrations. -/
structure Setting where
  config_path : Option String
  default : Option Value
  setting_type : SettingTypeArg
  preprocessors : List Processor
  postprocessors : List Processor

/-- Embeds `Setting.__init__`: reject a declaration with neither path nor
default, then reject a non-callable `setting_type`; otherwise the
descriptor starts with empty processor pipelines. -/
def Setting.init (config_path : Option String) (default : Option Value)
    (setting_type : SettingTypeArg) : Except Err Setting :=
  match config_path, default with
  | none, none => .error (.valueError "must provide config_path or default")
  | _, _ =>
    if setting_type.isCallable then
      .ok ⟨config_path, default, setting_type, [], []⟩
    else
      .error (.valueError "must provide callable for setting_type")

/-- The message of the `TypeError` Python would raise on
`"missing required config " + None` when `config_path` is `None`. -/
def concatNoneMsg : String :=
  "can only concatenate str (not \"NoneType\") to str"

/-- The branch of `Setting._get_configured_value` reached when resolution
yielded `None`: use the default, or raise the missing-required error built
by concatenating the path — a concatenation that itself raises a
`TypeError` when the path is `None`. -/
def defaultOrRaise (config_path : Option String) (default : Option Value) :
    Except Err Value :=
  match default with
  | some d => .ok d
  | none =>
    match config_path with
    | some p => .error (.valueError ("missing required config " ++ p))
    | none => .error (.typeError concatNoneMsg)

/-- Embeds `Setting._get_configured_value`: resolve the path when present;
on absence fall back to `defaultOrRaise`. -/
def getConfiguredValueCore (config_path : Option String)
    (default : Option Value) (instance_ : Configuration) : Except Err Value :=
  match config_path with
  | none => defaultOrRaise config_path default
  | some p =>
    match instance_.resolve p with
    | .error e => .error e
    | .ok none => defaultOrRaise config_path default
    | .ok (some v) => .ok v

/-- Embeds `Setting._get_configured_value` on a descriptor. -/
def Setting.getConfiguredValue (self : Setting) (instance_ : Configuration) :
    Except Err Value :=
  getConfiguredValueCore self.config_path self.default instance_

/-- Applies a processor pipeline in registration order, each processor
receiving the instance and the current working value. -/
def runProcessors (instance_ : Configuration) (ps : List Processor)
    (v : Value) : Value :=
  ps.foldl (fun acc p => p instance_ acc) v

/-- Embeds `Setting._process_configured_value`: preprocessors in order,
then `setting_type`, then postprocessors in order. -/
def Setting.processConfiguredValue (self : Setting) (instance_ : Configuration)
    (configured_value : Value) : Except Err Value :=
  match self.setting_type.call
      (runProcessors instance_ self.preprocessors configured_value) with
  | .error e => .error e
  | .ok result => .ok (runProcessors instance_ self.postprocessors result)

/-- Embeds `Setting.__get__` in an instance context: fetch the configured
value, then run it through the processing pipeline. -/
def Setting.get (self : Setting) (instance_ : Configuration) :
    Except Err Value :=
  match self.getConfiguredValue instance_ with
  | .error e => .error e
  | .ok configured_value => self.processConfiguredValue instance_ configured_value

/-- Accessing a list of settings on one instance, in order; descriptor
access reads the document and the descriptor but mutates neither, so each
access is `Setting.get` on the unchanged instance. -/
def accessAll (instance_ : Configuration) (settings : List Setting) :
    List (Except Err Value) :=
  settings.map (fun s => s.get instance_)

/-- Embeds the regex class `\w` over the ASCII names used by settings. -/
def isWordChar (c : Char) : Bool :=
  c.isAlphanum || c = '_'

/-- Matches the regex `\$\x7b(\w+)\x7d` at the head of the character list,
returning the captured name and the characters after the closing brace. -/
def matchPlaceholder : List Char → Option (String × List Char)
  | '$' :: '\x7b' :: rest =>
    let name := rest.takeWhile isWordChar
    (match rest.dropWhile isWordChar with
     | '\x7d' :: rest2 =>
       if name.isEmpty then none else some (String.mk name, rest2)
     | _ => none)
  | _ => none

/-- Embeds the `re.sub` scan of the nested-settings preprocessor: walk the
characters left to right; at each position either replace a placeholder
match with the looked-up sibling value (the replacement is not rescanned)
or keep the character.  The fuel argument dominates the scan length, so a
call with fuel above the list length never exhausts it. -/
def substLoop (lookupName : String → Except Err String) :
    Nat → List Char → Except Err (List Char)
  | 0, _ => .error .recursionError
  | _ + 1, [] => .ok []
  | fuel + 1, c :: cs =>
    match matchPlaceholder (c :: cs) with
    | some (name, rest) => do
      let replacement ← lookupName name
      let tail ← substLoop lookupName fuel rest
      pure (replacement.data ++ tail)
    | none => do
      let tail ← substLoop lookupName fuel cs
      pure (c :: tail)

/-- Embeds Python `str` on the values the nested-settings pipeline passes
around (strings and integers; the rendering of a mapping is an external
collaborator detail no setting in this development exercises). -/
def pyStr : Value → String
  | .str s => s
  | .int n => toString n
  | .dict _ => "\x7b...\x7d"

/-- A setting declaration of a class decorated with
`enable_nested_settings`: a path, a default, the default `setting_type`
of `str`, and the substitution preprocessor registered by the decorator. -/
structure NSetting where
  config_path : Option String
  default : Option Value

/-- A class body: attribute names bound to setting declarations. -/
def NClass : Type := List (String × NSetting)

/-- Embeds attribute access on an instance of a class decorated with
`enable_nested_settings`: `getattr` finds the descriptor by name, the
configured value is fetched as usual, the substitution preprocessor
replaces each placeholder with the string form of the sibling setting
freshly resolved on the same instance (recursing with one unit less fuel,
as Python recursion would consume stack), and the `str` coercion is
applied. -/
def ngetattr : Nat → NClass → Configuration → String → Except Err Value
  | 0, _, _, _ => .error .recursionError
  | fuel + 1, cls, instance_, name => do
    let s ←
      match cls.lookup name with
      | some s => pure s
      | none => Except.error (Err.attributeError name)
    let configured_value ← getConfiguredValueCore s.config_path s.default instance_
    let working := pyStr configured_value
    let substituted ←
      substLoop (fun n => Except.map pyStr (ngetattr fuel cls instance_ n))
        (working.data.length + 1) working.data
    pure (.str (pyStr (.str (String.mk substituted))))

/-- The nested-settings example class: defaults `a = "foo"`,
`b = "$\x7ba\x7dbar"`, `c = "$\x7bb\x7dbaz"`, `d = "/usr/tmp/$\x7bc\x7d"`. -/
def nestedExample : NClass :=
  [("a", ⟨some "a", some (.str "foo")⟩),
   ("b", ⟨some "b", some (.str "$\x7ba\x7dbar")⟩),
   ("c", ⟨some "c", some (.str "$\x7bb\x7dbaz")⟩),
   ("d", ⟨some "d", some (.str "/usr/tmp/$\x7bc\x7d")⟩)]

/-- Accessing the same setting repeatedly on the same instance. -/
def repeatedAccess (s : Setting) (instance_ : Configuration) (n : Nat) :
    List (Except Err Value) :=
  accessAll instance_ (List.replicate n s)

/-! ### Helper lemmas -/

/-- The membership test a mapping node performs agrees with whether the
subsequent lookup finds a value. -/
theorem any_key_eq_lookup_isSome (es : List (String × Value)) (item : String) :
    es.any (fun kv => kv.1 == item) = (es.lookup item).isSome := by
  rw [Bool.eq_iff_iff]
  simp only [List.any_eq_true, List.lookup_isSome_iff, beq_iff_eq]
  exact ⟨fun ⟨p, hp, he⟩ => ⟨p, hp, he.symm⟩, fun ⟨p, hp, he⟩ => ⟨p, hp, he.symm⟩⟩

/-- When the resolver walk returns without raising, its result is exactly
the pure walk the spec describes. -/
theorem resolveSteps_ok_eq_specWalk :
    ∀ (parts : List String) (doc : Value) (r : Option Value),
      resolveSteps doc parts = .ok r → r = specWalk doc parts := by
  intro parts
  induction parts with
  | nil =>
    intro doc r h
    simp only [resolveSteps, Except.ok.injEq] at h
    simp [specWalk, ← h]
  | cons item rest ih =>
    intro doc r h
    match doc with
    | .int n => simp [resolveSteps, Value.containsItem] at h
    | .str s =>
      simp only [resolveSteps, Value.containsItem] at h
      match hb : listIsInfix item.data s.data with
      | false => rw [hb] at h; simp only [Except.ok.injEq] at h; simp [specWalk, ← h]
      | true => rw [hb] at h; simp [Value.getItem] at h
    | .dict es =>
      simp only [resolveSteps, Value.containsItem] at h
      match hq : es.lookup item with
      | some v =>
        have hany : es.any (fun kv => kv.1 == item) = true := by
          rw [any_key_eq_lookup_isSome, hq]; rfl
        rw [hany] at h
        simp only [Value.getItem, hq] at h
        simpa [specWalk, hq] using ih v r h
      | none =>
        have hany : es.any (fun kv => kv.1 == item) = false := by
          rw [any_key_eq_lookup_isSome, hq]; rfl
        rw [hany] at h
        simp only [Except.ok.injEq] at h
        simp [specWalk, hq, ← h]

/-- When every node the walk passes through is a mapping, the resolver
returns the pure walk result without raising. -/
theorem resolveSteps_dictsAlong :
    ∀ (parts : List String) (doc : Value),
      dictsAlong doc parts = true →
      resolveSteps doc parts = .ok (specWalk doc parts) := by
  intro parts
  induction parts with
  | nil => intro doc _; simp [resolveSteps, specWalk]
  | cons item rest ih =>
    intro doc hd
    match doc with
    | .int n => simp [dictsAlong] at hd
    | .str s => simp [dictsAlong] at hd
    | .dict es =>
      simp only [dictsAlong] at hd
      match hq : es.lookup item with
      | some v =>
        have hany : es.any (fun kv => kv.1 == item) = true := by
          rw [any_key_eq_lookup_isSome, hq]; rfl
        rw [hq] at hd
        simp only [resolveSteps, Value.containsItem, hany, Value.getItem, hq,
          specWalk]
        exact ih v hd
      | none =>
        have hany : es.any (fun kv => kv.1 == item) = false := by
          rw [any_key_eq_lookup_isSome, hq]; rfl
        simp [resolveSteps, Value.containsItem, hany, specWalk, hq]

/-! ### Claim theorems -/

/-- C3 counterexample: on the document `\x7b"a": "bc"\x7d` and path
`"a.b"`, the resolver raises a `TypeError` instead of returning absence or
a node: the segment `"b"` passes the Python substring membership test on
the leaf string `"bc"`, and the subsequent string subscript raises.  This
refutes the claim that the walk returns absence or the final node without
raising any error even when an intermediate node is a leaf. -/
theorem c3_leaf_raises_counterexample :
    (Configuration.mk (.dict [("a", .str "bc")])).resolve "a.b" =
      .error (.typeError "string indices must be integers") := rfl

/-- C3 (amended): the container's resolver splits the path on the dot and
walks the document one segment at a time; whenever it returns without
raising, its result is absence as soon as a segment is not present and
otherwise the final node reached; and whenever every node along the walk
is a mapping, it raises nothing and returns exactly the pure walk result.
An intermediate leaf, however, can make it raise: a string leaf whose text
contains the segment as a substring triggers a string-subscript
`TypeError`, and a non-string scalar makes the membership test itself
raise. -/
theorem c3_resolver_walk (doc : Value) (path : String) :
    (Configuration.mk doc).resolve path = resolveSteps doc (splitDot path)
    ∧ (∀ r, resolveSteps doc (splitDot path) = .ok r →
        r = specWalk doc (splitDot path))
    ∧ (dictsAlong doc (splitDot path) = true →
        resolveSteps doc (splitDot path) = .ok (specWalk doc (splitDot path))) :=
  ⟨rfl, fun r h => resolveSteps_ok_eq_specWalk (splitDot path) doc r h,
   fun h => resolveSteps_dictsAlong (splitDot path) doc h⟩

/-- C3 witness: the amended theorem applied to a concrete nested document
and path, discharging the mapping-shaped hypothesis by evaluation. -/
theorem c3_resolver_walk_witness :
    resolveSteps (.dict [("a", .dict [("b", .str "z")])]) (splitDot "a.b") =
      .ok (specWalk (.dict [("a", .dict [("b", .str "z")])]) (splitDot "a.b")) :=
  (c3_resolver_walk (.dict [("a", .dict [("b", .str "z")])]) "a.b").2.2 rfl

/-- C1: when the setting's path resolves to a value in the document,
attribute access returns the preprocessors applied in registration order
(each receiving the instance and the working value), then `setting_type`,
then the postprocessors in registration order; and the result of the
access is the same no matter which other settings were accessed on the
instance beforehand. -/
theorem c1_pipeline_order (s : Setting) (instance_ : Configuration)
    (p : String) (v : Value) (f : Value → Value)
    (hpath : s.config_path = some p)
    (htype : s.setting_type = .callableFn f)
    (hres : instance_.resolve p = .ok (some v)) :
    s.get instance_ =
      .ok (runProcessors instance_ s.postprocessors
        (f (runProcessors instance_ s.preprocessors v)))
    ∧ ∀ prior : List Setting,
        accessAll instance_ (prior ++ [s]) =
          accessAll instance_ prior ++ [s.get instance_] := by
  constructor
  · simp [Setting.get, Setting.getConfiguredValue, getConfiguredValueCore,
      hpath, hres, Setting.processConfiguredValue, htype, SettingTypeArg.call]
  · intro prior
    simp [accessAll]

/-- C1 witness: the pipeline theorem applied to a one-setting schema over
the document `\x7b"x": "bar"\x7d`. -/
theorem c1_pipeline_order_witness :
    (Setting.mk (some "x") none (.callableFn id) [] []).get
        (Configuration.mk (.dict [("x", .str "bar")])) =
      .ok (runProcessors (Configuration.mk (.dict [("x", .str "bar")])) []
        (id (runProcessors (Configuration.mk (.dict [("x", .str "bar")])) []
          (.str "bar")))) :=
  (c1_pipeline_order (Setting.mk (some "x") none (.callableFn id) [] [])
    (Configuration.mk (.dict [("x", .str "bar")])) "x" (.str "bar") id
    rfl rfl rfl).1

/-- C2: when the path lookup yields no value, an unset default raises the
missing-required error naming the path, and a set default becomes the
working value fed to the pipeline; and any value stored in the document at
the path — the empty string included — is treated as present, so the
default is not consulted. -/
theorem c2_default_only_on_absence (s : Setting) (instance_ : Configuration)
    (p : String) (hpath : s.config_path = some p) :
    (instance_.resolve p = .ok none → s.default = none →
      s.get instance_ = .error (.valueError ("missing required config " ++ p)))
    ∧ (∀ d, instance_.resolve p = .ok none → s.default = some d →
        s.getConfiguredValue instance_ = .ok d
        ∧ s.get instance_ = s.processConfiguredValue instance_ d)
    ∧ (∀ v, instance_.resolve p = .ok (some v) →
        s.getConfiguredValue instance_ = .ok v
        ∧ s.get instance_ = s.processConfiguredValue instance_ v) := by
  refine ⟨?_, ?_, ?_⟩
  · intro hres hdef
    simp [Setting.get, Setting.getConfiguredValue, getConfiguredValueCore,
      hpath, hres, defaultOrRaise, hdef]
  · intro d hres hdef
    constructor <;>
      simp [Setting.get, Setting.getConfiguredValue, getConfiguredValueCore,
        hpath, hres, defaultOrRaise, hdef]
  · intro v hres
    constructor <;>
      simp [Setting.get, Setting.getConfiguredValue, getConfiguredValueCore,
        hpath, hres]

/-- C2 witness: with an empty document a default-less setting raises the
missing-required error, a defaulted setting works from its default, and an
empty string stored in the document is treated as present. -/
theorem c2_default_only_on_absence_witness :
    (Setting.mk (some "p") none (.callableFn id) [] []).get
        (Configuration.mk (.dict [])) =
      .error (.valueError ("missing required config " ++ "p"))
    ∧ (Setting.mk (some "p") (some (.int 5)) (.callableFn id) [] []).getConfiguredValue
        (Configuration.mk (.dict [])) = .ok (.int 5)
    ∧ (Setting.mk (some "p") (some (.int 5)) (.callableFn id) [] []).getConfiguredValue
        (Configuration.mk (.dict [("p", .str "")])) = .ok (.str "") :=
  ⟨(c2_default_only_on_absence (Setting.mk (some "p") none (.callableFn id) [] [])
      (Configuration.mk (.dict [])) "p" rfl).1 rfl rfl,
   ((c2_default_only_on_absence
      (Setting.mk (some "p") (some (.int 5)) (.callableFn id) [] [])
      (Configuration.mk (.dict [])) "p" rfl).2.1 (.int 5) rfl rfl).1,
   ((c2_default_only_on_absence
      (Setting.mk (some "p") (some (.int 5)) (.callableFn id) [] [])
      (Configuration.mk (.dict [("p", .str "")])) "p" rfl).2.2 (.str "") rfl).1⟩

/-- C4: registering a provider on a class that already has one composes
rather than replaces — the decorator installs the chain of the new
provider in front of the previous one; in that chain the new provider is
tried first, absence falls through to the previous provider, and a raised
exception propagates immediately for every possible fallback provider. -/
theorem c4_provider_chain (w : World) (location : Location)
    (must_exist : Option Bool) (cls : ConfigClass) (prev : ProviderResult) :
    (cls.provider = some prev →
      (configuration_provider w location must_exist cls).provider =
        some (chain_providers (load_configuration w location must_exist) (some prev)))
    ∧ (∀ v, load_configuration w location must_exist = .ok (some v) →
        chain_providers (load_configuration w location must_exist) (some prev) =
          .ok (some v))
    ∧ (load_configuration w location must_exist = .ok none →
        chain_providers (load_configuration w location must_exist) (some prev) = prev)
    ∧ (∀ e, load_configuration w location must_exist = .error e →
        chain_providers (load_configuration w location must_exist) (some prev) =
          .error e) := by
  refine ⟨?_, ?_, ?_, ?_⟩
  · intro hp
    simp [configuration_provider, hp]
  · intro v h
    simp [chain_providers, h]
  · intro h
    simp [chain_providers, h]
  · intro e h
    simp [chain_providers, h]

/-- A concrete collaborator world for witnesses: one environment variable
`CFG` naming `conf.yaml`, trivial home expansion, and a filesystem holding
only `other.yaml`. -/
def sampleWorld : World :=
  ⟨fun n => if n = "CFG" then some "conf.yaml" else none,
   fun pth => pth,
   fun pth => if pth = "other.yaml" then some (.dict [("x", .str "a")]) else none⟩

/-- C4 witness: chaining over `sampleWorld` — a mapping provider wins
immediately, an absent file falls through to the previous provider, and a
must-exist violation propagates past the fallback. -/
theorem c4_provider_chain_witness :
    (configuration_provider sampleWorld (.mapping [("x", .str "a")]) none
        ⟨"TestClass", some (.ok none)⟩).provider =
      some (chain_providers
        (load_configuration sampleWorld (.mapping [("x", .str "a")]) none)
        (some (.ok none)))
    ∧ chain_providers
        (load_configuration sampleWorld (.mapping [("x", .str "a")]) none)
        (some (.ok none)) = .ok (some (.dict [("x", .str "a")]))
    ∧ chain_providers
        (load_configuration sampleWorld (.strLoc "missing.yaml") none)
        (some (.ok (some (.dict [("x", .str "a")])))) =
      .ok (some (.dict [("x", .str "a")]))
    ∧ chain_providers
        (load_configuration sampleWorld (.strLoc "missing.yaml") (some true))
        (some (.ok (some (.dict [("x", .str "a")])))) =
      .error (.valueError ("could not find configuration file at " ++ "missing.yaml")) :=
  ⟨(c4_provider_chain sampleWorld (.mapping [("x", .str "a")]) none
      ⟨"TestClass", some (.ok none)⟩ (.ok none)).1 rfl,
   (c4_provider_chain sampleWorld (.mapping [("x", .str "a")]) none
      ⟨"TestClass", some (.ok none)⟩ (.ok none)).2.1 (.dict [("x", .str "a")]) rfl,
   (c4_provider_chain sampleWorld (.strLoc "missing.yaml") none
      ⟨"TestClass", none⟩ (.ok (some (.dict [("x", .str "a")])))).2.2.1 rfl,
   (c4_provider_chain sampleWorld (.strLoc "missing.yaml") (some true)
      ⟨"TestClass", none⟩ (.ok (some (.dict [("x", .str "a")])))).2.2.2
     (.valueError ("could not find configuration file at " ++ "missing.yaml")) rfl⟩

/-- C5: the dispatcher returns a mapping unchanged; a string beginning
with the dollar marker strips it and goes through the environment
resolver — an unset variable is absence, a set one delegates to the file
resolver with `must_exist` defaulting to true, so a set variable naming a
nonexistent file is a hard error; any other string goes to the file
resolver with `must_exist` defaulting to false, the home marker expanded,
a missing file yielding absence unless `must_exist` is set, in which case
the error carries the expanded path; the `must_exist` keyword passes
through to the chosen resolver. -/
theorem c5_dispatcher (w : World) (must_exist : Option Bool) :
    (∀ entries, load_configuration w (.mapping entries) must_exist =
        .ok (some (.dict entries)))
    ∧ (∀ s, startsWithDollar s = true →
        load_configuration w (.strLoc s) must_exist =
          load_configuration_from_environment_variable w (dropFirstChar s)
            (must_exist.getD true))
    ∧ (∀ s, startsWithDollar s = false →
        load_configuration w (.strLoc s) must_exist =
          load_configuration_from_file w s (must_exist.getD false))
    ∧ (∀ n b, w.env n = none →
        load_configuration_from_environment_variable w n b = .ok none)
    ∧ (∀ n b pth, w.env n = some pth →
        load_configuration_from_environment_variable w n b =
          load_configuration_from_file w pth b)
    ∧ (∀ n pth, w.env n = some pth → w.files (w.expand pth) = none →
        load_configuration w (.strLoc ("$" ++ n)) none =
          .error (.valueError
            ("could not find configuration file at " ++ w.expand pth)))
    ∧ (∀ pth b doc, w.files (w.expand pth) = some doc →
        load_configuration_from_file w pth b = .ok (some doc))
    ∧ (∀ pth, w.files (w.expand pth) = none →
        load_configuration_from_file w pth false = .ok none
        ∧ load_configuration_from_file w pth true =
            .error (.valueError
              ("could not find configuration file at " ++ w.expand pth))) := by
  refine ⟨fun entries => rfl, ?_, ?_, ?_, ?_, ?_, ?_, ?_⟩
  · intro s hs
    simp [load_configuration, hs]
  · intro s hs
    simp [load_configuration, hs]
  · intro n b h
    simp [load_configuration_from_environment_variable, h]
  · intro n b pth h
    simp [load_configuration_from_environment_variable, h]
  · intro n pth h hf
    have hdollar : startsWithDollar ("$" ++ n) = true := by
      simp [startsWithDollar, String.data_append]
    have hdrop : dropFirstChar ("$" ++ n) = n := by
      simp only [dropFirstChar, String.data_append]
      rfl
    simp [load_configuration, hdollar, hdrop,
      load_configuration_from_environment_variable, h,
      load_configuration_from_file, hf]
  · intro pth b doc h
    simp [load_configuration_from_file, h]
  · intro pth h
    constructor <;> simp [load_configuration_from_file, h]

/-- C5 witness: over `sampleWorld` — a mapping passes through, the set
variable `CFG` names the missing `conf.yaml` so the default-true
`must_exist` raises, the unset variable `OTHER` is absence, and the plain
missing path `missing.yaml` is silent absence under the default-false
`must_exist`. -/
theorem c5_dispatcher_witness :
    load_configuration sampleWorld (.mapping [("x", .str "a")]) none =
      .ok (some (.dict [("x", .str "a")]))
    ∧ load_configuration sampleWorld (.strLoc ("$" ++ "CFG")) none =
      .error (.valueError
        ("could not find configuration file at " ++ sampleWorld.expand "conf.yaml"))
    ∧ load_configuration_from_environment_variable sampleWorld "OTHER" true = .ok none
    ∧ load_configuration_from_file sampleWorld "missing.yaml" false = .ok none
    ∧ load_configuration_from_file sampleWorld "other.yaml" false =
      .ok (some (.dict [("x", .str "a")])) :=
  ⟨(c5_dispatcher sampleWorld none).1 [("x", .str "a")],
   (c5_dispatcher sampleWorld none).2.2.2.2.2.1 "CFG" "conf.yaml" rfl rfl,
   (c5_dispatcher sampleWorld none).2.2.2.1 "OTHER" true rfl,
   ((c5_dispatcher sampleWorld none).2.2.2.2.2.2.2 "missing.yaml" rfl).1,
   (c5_dispatcher sampleWorld none).2.2.2.2.2.2.1 "other.yaml" false
     (.dict [("x", .str "a")]) rfl⟩

/-- C6 counterexample: the claim requires construction to fail whenever
it is not the case that exactly one of `config_path` and `default` is
non-null, yet a `Setting` declared with both a path and a default — the
shape the repository's own test suite constructs as
`Setting("x", 5000, int)` — is accepted. -/
theorem c6_both_non_null_accepted_counterexample :
    (Setting.init (some "x") (some (.int 5000)) (.callableFn id)).isOk = true := rfl

/-- C6 (amended): construction succeeds exactly when at least one of
`config_path` and `default` is non-null and `setting_type` is callable;
with both null it raises the must-provide error (checked first), with a
non-callable type it raises the callable error, and otherwise it returns
the descriptor with empty processor pipelines. -/
theorem c6_construction_guard (config_path : Option String)
    (default : Option Value) (setting_type : SettingTypeArg) :
    ((Setting.init config_path default setting_type).isOk = true ↔
      (config_path ≠ none ∨ default ≠ none) ∧ setting_type.isCallable = true)
    ∧ (config_path = none → default = none →
        Setting.init config_path default setting_type =
          .error (.valueError "must provide config_path or default"))
    ∧ (setting_type.isCallable = false → config_path ≠ none ∨ default ≠ none →
        Setting.init config_path default setting_type =
          .error (.valueError "must provide callable for setting_type"))
    ∧ (setting_type.isCallable = true → config_path ≠ none ∨ default ≠ none →
        Setting.init config_path default setting_type =
          .ok ⟨config_path, default, setting_type, [], []⟩) := by
  refine ⟨?_, ?_, ?_, ?_⟩
  · match config_path, default with
    | none, none => simp [Setting.init, Except.isOk, Except.toBool]
    | none, some d =>
      match hc : setting_type.isCallable with
      | true => simp [Setting.init, Except.isOk, Except.toBool, hc]
      | false => simp [Setting.init, Except.isOk, Except.toBool, hc]
    | some p, _ =>
      match hc : setting_type.isCallable with
      | true => simp [Setting.init, Except.isOk, Except.toBool, hc]
      | false => simp [Setting.init, Except.isOk, Except.toBool, hc]
  · intro hp hd
    subst hp; subst hd
    rfl
  · intro hc hor
    match config_path, default with
    | none, none => simp at hor
    | none, some d => simp [Setting.init, hc]
    | some p, _ => simp [Setting.init, hc]
  · intro hc hor
    match config_path, default with
    | none, none => simp at hor
    | none, some d => simp [Setting.init, hc]
    | some p, _ => simp [Setting.init, hc]

/-- C6 witness: the amended guard applied to concrete constructions — a
path-with-default declaration succeeds, a declaration with neither fails,
and a non-callable type fails. -/
theorem c6_construction_guard_witness :
    ((Setting.init (some "x") (some (.int 5000)) (.callableFn id)).isOk = true ↔
      ((some "x" : Option String) ≠ none ∨ (some (.int 5000) : Option Value) ≠ none)
        ∧ (SettingTypeArg.callableFn id).isCallable = true)
    ∧ Setting.init none none (.callableFn id) =
        .error (.valueError "must provide config_path or default")
    ∧ Setting.init (some "x") none (.notCallable (.str "not_callable")) =
        .error (.valueError "must provide callable for setting_type") :=
  ⟨(c6_construction_guard (some "x") (some (.int 5000)) (.callableFn id)).1,
   (c6_construction_guard none none (.callableFn id)).2.1 rfl rfl,
   (c6_construction_guard (some "x") none (.notCallable (.str "not_callable"))).2.2.1
     rfl (Or.inl (by simp))⟩

/-- C7: `load` with explicit location arguments resolves through the
dispatcher, independently of whatever provider the class has registered;
with no arguments and no registered provider it raises the
no-provider-defined `TypeError` naming the class; an absent document in
either path raises the could-not-be-loaded error; and a present
mapping-shaped document is wrapped in a fresh container instance. -/
theorem c7_load (w : World) (cls : ConfigClass) :
    (∀ location must_exist prov,
      (ConfigClass.mk cls.name prov).load w (.withLocation location must_exist) =
        cls.load w (.withLocation location must_exist))
    ∧ (cls.provider = none →
        cls.load w .noArgs =
          .error (.typeError (cls.name ++ " has no provider defined")))
    ∧ (∀ location must_exist,
        load_configuration w location must_exist = .ok none →
        cls.load w (.withLocation location must_exist) =
          .error (.valueError "configuration file could not be loaded"))
    ∧ (cls.provider = some (.ok none) →
        cls.load w .noArgs =
          .error (.valueError "configuration file could not be loaded"))
    ∧ (∀ location must_exist entries,
        load_configuration w location must_exist = .ok (some (.dict entries)) →
        cls.load w (.withLocation location must_exist) =
          .ok (Configuration.mk (.dict entries)))
    ∧ (∀ entries, cls.provider = some (.ok (some (.dict entries))) →
        cls.load w .noArgs = .ok (Configuration.mk (.dict entries))) := by
  have hwrap : ∀ entries : List (String × Value),
      Configuration.make (some (.dict entries)) = Configuration.mk (.dict entries) := by
    intro entries
    match entries with
    | [] => rfl
    | e :: es => rfl
  refine ⟨?_, ?_, ?_, ?_, ?_, ?_⟩
  · intro location must_exist prov
    simp [ConfigClass.load]
  · intro hp
    simp [ConfigClass.load, hp]
  · intro location must_exist h
    simp [ConfigClass.load, h]
  · intro hp
    simp [ConfigClass.load, hp]
  · intro location must_exist entries h
    simp [ConfigClass.load, h, hwrap]
  · intro entries hp
    simp [ConfigClass.load, hp, hwrap]

/-- C7 witness: over `sampleWorld` — explicit mapping arguments load the
same container whatever the provider, a provider-less class raises the
no-provider error naming itself, an exhausted provider raises the
could-not-be-loaded error, and a mapping provider yields the wrapped
container. -/
theorem c7_load_witness :
    (ConfigClass.mk "TestClass" (some (.ok none))).load sampleWorld
        (.withLocation (.mapping [("x", .str "a")]) none) =
      (ConfigClass.mk "TestClass" none).load sampleWorld
        (.withLocation (.mapping [("x", .str "a")]) none)
    ∧ (ConfigClass.mk "TestClass" none).load sampleWorld .noArgs =
      .error (.typeError ("TestClass" ++ " has no provider defined"))
    ∧ (ConfigClass.mk "TestClass" (some (.ok none))).load sampleWorld .noArgs =
      .error (.valueError "configuration file could not be loaded")
    ∧ (ConfigClass.mk "TestClass" none).load sampleWorld
        (.withLocation (.strLoc "missing.yaml") none) =
      .error (.valueError "configuration file could not be loaded")
    ∧ (ConfigClass.mk "TestClass" (some (.ok (some (.dict [("x", .str "a")]))))).load
        sampleWorld .noArgs = .ok (Configuration.mk (.dict [("x", .str "a")])) :=
  ⟨(c7_load sampleWorld (ConfigClass.mk "TestClass" none)).1
      (.mapping [("x", .str "a")]) none (some (.ok none)),
   (c7_load sampleWorld (ConfigClass.mk "TestClass" none)).2.1 rfl,
   (c7_load sampleWorld (ConfigClass.mk "TestClass" (some (.ok none)))).2.2.2.1 rfl,
   (c7_load sampleWorld (ConfigClass.mk "TestClass" none)).2.2.1
     (.strLoc "missing.yaml") none rfl,
   (c7_load sampleWorld
      (ConfigClass.mk "TestClass" (some (.ok (some (.dict [("x", .str "a")])))))).2.2.2.2.2
     [("x", .str "a")] rfl⟩

/-- C8: with nested settings enabled, placeholders are replaced by the
sibling setting freshly resolved on the same instance, recursively through
chains of references: `a`, `b`, `c` and `d` of the example schema resolve
to `"foo"`, `"foobar"`, `"foobarbaz"` and `"/usr/tmp/foobarbaz"` (the
recursion fuel of 10 dominates the reference depth of 4, so no access
exhausts it). -/
theorem c8_nested_substitution :
    ngetattr 10 nestedExample (Configuration.make none) "a" = .ok (.str "foo")
    ∧ ngetattr 10 nestedExample (Configuration.make none) "b" = .ok (.str "foobar")
    ∧ ngetattr 10 nestedExample (Configuration.make none) "c" =
        .ok (.str "foobarbaz")
    ∧ ngetattr 10 nestedExample (Configuration.make none) "d" =
        .ok (.str "/usr/tmp/foobarbaz") :=
  ⟨rfl, rfl, rfl, rfl⟩

/-- C9: repeated access to the same setting on the same instance —
descriptor access reads the descriptor and document and mutates neither,
and every access re-runs `Setting.get`, the full lookup-and-transform
pipeline, with no cache consulted — returns an equal value every time. -/
theorem c9_repeated_access_equal (s : Setting) (instance_ : Configuration)
    (n : Nat) :
    repeatedAccess s instance_ n = List.replicate n (s.get instance_)
    ∧ (∀ r ∈ repeatedAccess s instance_ n, r = s.get instance_)
    ∧ (∀ i j, i < n → j < n →
        (repeatedAccess s instance_ n).getD i (.ok (.int 0)) =
          (repeatedAccess s instance_ n).getD j (.ok (.int 0))) := by
  have hrep : repeatedAccess s instance_ n = List.replicate n (s.get instance_) := by
    simp [repeatedAccess, accessAll, List.map_replicate]
  have hgetD : ∀ m i, i < m →
      (List.replicate m (s.get instance_)).getD i (.ok (.int 0)) = s.get instance_ := by
    intro m
    induction m with
    | zero => intro i hi; omega
    | succ k ihk =>
      intro i hi
      match i with
      | 0 => rfl
      | j + 1 => exact ihk j (Nat.lt_of_succ_lt_succ hi)
  refine ⟨hrep, ?_, ?_⟩
  · intro r hr
    rw [hrep] at hr
    exact List.eq_of_mem_replicate hr
  · intro i j hi hj
    rw [hrep, hgetD n i hi, hgetD n j hj]

/-- C9 witness: three consecutive accesses of one setting on one instance
all return the same value. -/
theorem c9_repeated_access_equal_witness :
    repeatedAccess (Setting.mk (some "x") none (.callableFn id) [] [])
        (Configuration.mk (.dict [("x", .str "bar")])) 3 =
      List.replicate 3
        ((Setting.mk (some "x") none (.callableFn id) [] []).get
          (Configuration.mk (.dict [("x", .str "bar")])))
    ∧ (repeatedAccess (Setting.mk (some "x") none (.callableFn id) [] [])
          (Configuration.mk (.dict [("x", .str "bar")])) 3).getD 0 (.ok (.int 0)) =
      (repeatedAccess (Setting.mk (some "x") none (.callableFn id) [] [])
          (Configuration.mk (.dict [("x", .str "bar")])) 3).getD 2 (.ok (.int 0)) :=
  ⟨(c9_repeated_access_equal (Setting.mk (some "x") none (.callableFn id) [] [])
      (Configuration.mk (.dict [("x", .str "bar")])) 3).1,
   (c9_repeated_access_equal (Setting.mk (some "x") none (.callableFn id) [] [])
      (Configuration.mk (.dict [("x", .str "bar")])) 3).2.2 0 2
     (by decide) (by decide)⟩

/-- The resolver walk never raises the string-plus-`None` concatenation
`TypeError`: its own errors are the membership and subscript errors of
non-mapping nodes. -/
theorem resolveSteps_ne_concat_error :
    ∀ (parts : List String) (doc : Value),
      resolveSteps doc parts ≠ .error (.typeError concatNoneMsg) := by
  intro parts
  induction parts with
  | nil => intro doc h; simp [resolveSteps] at h
  | cons item rest ih =>
    intro doc h
    match doc with
    | .int n => simp [resolveSteps, Value.containsItem, concatNoneMsg] at h
    | .str s =>
      simp only [resolveSteps, Value.containsItem] at h
      match hb : listIsInfix item.data s.data with
      | false => rw [hb] at h; simp at h
      | true => rw [hb] at h; simp [Value.getItem, concatNoneMsg] at h
    | .dict es =>
      simp only [resolveSteps, Value.containsItem] at h
      match hany : es.any (fun kv => kv.1 == item) with
      | false => rw [hany] at h; simp at h
      | true =>
        rw [hany] at h
        simp only [Value.getItem] at h
        match hq : es.lookup item with
        | some v => rw [hq] at h; exact ih v h
        | none => rw [hq] at h; simp at h

/-- The configured-value fetch never raises the concatenation `TypeError`
when the descriptor satisfies the construction invariant that path and
default are not both `None`. -/
theorem getConfiguredValueCore_ne_concat_error (config_path : Option String)
    (default : Option Value) (instance_ : Configuration)
    (hok : ¬(config_path = none ∧ default = none)) :
    getConfiguredValueCore config_path default instance_ ≠
      .error (.typeError concatNoneMsg) := by
  match config_path with
  | none =>
    match default with
    | some d => simp [getConfiguredValueCore, defaultOrRaise]
    | none => exact absurd ⟨rfl, rfl⟩ hok
  | some p =>
    intro hcontra
    simp only [getConfiguredValueCore] at hcontra
    match hr : instance_.resolve p with
    | .error e =>
      rw [hr] at hcontra
      simp only [Except.error.injEq] at hcontra
      exact resolveSteps_ne_concat_error (splitDot p) instance_.config_data
        (by rw [hcontra] at hr; exact hr)
    | .ok none =>
      rw [hr] at hcontra
      match default with
      | some d => simp [defaultOrRaise] at hcontra
      | none => simp [defaultOrRaise, Err.typeError.injEq] at hcontra
    | .ok (some v) =>
      rw [hr] at hcontra
      simp at hcontra

/-- C10: any descriptor that construction accepted cannot have both path
and default `None`, so when the missing-required branch is reached the
path concatenation is total: the configured-value fetch can never raise
the string-plus-`None` `TypeError`. -/
theorem c10_missing_error_total (config_path : Option String)
    (default : Option Value) (setting_type : SettingTypeArg) (s : Setting)
    (h : Setting.init config_path default setting_type = .ok s) :
    (s.config_path = none → ∃ d, s.default = some d)
    ∧ ∀ instance_, s.getConfiguredValue instance_ ≠
        .error (.typeError concatNoneMsg) := by
  have key : ¬(s.config_path = none ∧ s.default = none) := by
    match config_path, default with
    | none, none => simp [Setting.init] at h
    | none, some d =>
      match hc : setting_type.isCallable with
      | true =>
        simp [Setting.init, hc] at h
        rw [← h]
        simp
      | false => simp [Setting.init, hc] at h
    | some p, df =>
      match hc : setting_type.isCallable with
      | true =>
        simp [Setting.init, hc] at h
        rw [← h]
        simp
      | false => simp [Setting.init, hc] at h
  refine ⟨?_, ?_⟩
  · intro hcp
    match hd : s.default with
    | some d => exact ⟨d, rfl⟩
    | none => exact absurd ⟨hcp, hd⟩ key
  · intro instance_
    exact getConfiguredValueCore_ne_concat_error s.config_path s.default instance_ key

/-- C10 witness: a path-only descriptor accepted by construction, probed
on the empty document, does not raise the concatenation `TypeError` (it
raises the missing-required `ValueError` instead). -/
theorem c10_missing_error_total_witness :
    (Setting.mk (some "p") none (.callableFn id) [] []).getConfiguredValue
        (Configuration.mk (.dict [])) ≠ .error (.typeError concatNoneMsg) :=
  (c10_missing_error_total (some "p") none (.callableFn id)
    (Setting.mk (some "p") none (.callableFn id) [] []) rfl).2
    (Configuration.mk (.dict []))

end DeclareConfig
